import Mathlib

/-!
Verification of the dwv pixel-data decoding pipeline.

The definitions below shallowly embed the decoder classes of the source
(`AsynchPixelBufferDecoder`, `SynchPixelBufferDecoder`, `PixelBufferDecoder`)
and the `FilesLoader` completion counters.  Compressed pixel buffers are
modelled as opaque identifiers (`Nat`); the four external codec engines
(the global `jpeg.lossless`, `JpegImage`, `JpxImage` objects and the dwv
`RleDecoder`, none of which is part of the embedded files) are modelled as
opaque per-buffer functions that either succeed or throw, together with the
module-load-time presence flags `hasJpegBaselineDecoder`,
`hasJpegLosslessDecoder`, `hasJpeg2000Decoder`.
-/

namespace Dwv

/-- Frame metadata handed to a decode call (`pixelMeta` in the source). -/
structure PixelMeta where
  bitsAllocated : Nat
  isSigned : Bool
  sliceSize : Nat
  samplesPerPixel : Nat
  planarConfiguration : Nat
deriving DecidableEq, Repr

/-- Shape of the `decodedBuffer` value produced by one synchronous decode:
the typed-array kind chosen by the dispatch chain, or `nullBuf` when the
chain leaves the initial `null` untouched. -/
inductive DecodedBuffer where
  | int8Arr
  | uint8Arr
  | int16Arr
  | uint16Arr
  | baselineRaster
  | jpeg2000Tile
  | rleOut
  | nullBuf
deriving DecidableEq, Repr

/-- A lifecycle event fired through one of the six `on*` callbacks. -/
inductive Event where
  | decodestart
  | decodeditem (data : DecodedBuffer) (index : Nat)
  | decoded
  | decodeend
  | error (msg : String)
  | abort
deriving DecidableEq, Repr

/-- True for a per-item-decoded event. -/
def Event.isItem : Event → Bool
  | Event.decodeditem _ _ => true
  | _ => false

/-- The external codec environment: the module-load-time presence flags of
the three pluggable engines, plus the opaque engine calls themselves, each
of which may throw on a given compressed buffer (e.g. a malformed
bitstream).  `rleRun` stands for `dwv.decoder.RleDecoder`, repository code
outside the embedded files, likewise opaque here. -/
structure Codecs where
  hasJpegBaselineDecoder : Bool
  hasJpegLosslessDecoder : Bool
  hasJpeg2000Decoder : Bool
  losslessRun : Nat → Except String Unit
  baselineRun : Nat → Except String Unit
  jpxRun : Nat → Except String Unit
  rleRun : Nat → Except String Unit

/-- The dispatch chain of `SynchPixelBufferDecoder.decode` (part_001 lines
179-230): four `if`/`else if` branches keyed on the algorithm name, each
guarded by its engine's presence flag, with NO final `else` — an unknown
algorithm name leaves `decodedBuffer` at its initial `null`.  Returns the
thrown error or the resulting buffer kind. -/
def dispatchDecode (env : Codecs) (algoName : String) (pixelBuffer : Nat)
    (pixelMeta : PixelMeta) : Except String DecodedBuffer :=
  if algoName = "jpeg-lossless" then
    if env.hasJpegLosslessDecoder = false then
      Except.error "No JPEG Lossless decoder provided"
    else
      match env.losslessRun pixelBuffer with
      | Except.error e => Except.error e
      | Except.ok _ =>
        if pixelMeta.bitsAllocated = 8 then
          if pixelMeta.isSigned then Except.ok DecodedBuffer.int8Arr
          else Except.ok DecodedBuffer.uint8Arr
        else if pixelMeta.bitsAllocated = 16 then
          if pixelMeta.isSigned then Except.ok DecodedBuffer.int16Arr
          else Except.ok DecodedBuffer.uint16Arr
        else Except.ok DecodedBuffer.nullBuf
  else if algoName = "jpeg-baseline" then
    if env.hasJpegBaselineDecoder = false then
      Except.error "No JPEG Baseline decoder provided"
    else
      match env.baselineRun pixelBuffer with
      | Except.error e => Except.error e
      | Except.ok _ => Except.ok DecodedBuffer.baselineRaster
  else if algoName = "jpeg2000" then
    if env.hasJpeg2000Decoder = false then
      Except.error "No JPEG 2000 decoder provided"
    else
      match env.jpxRun pixelBuffer with
      | Except.error e => Except.error e
      | Except.ok _ => Except.ok DecodedBuffer.jpeg2000Tile
  else if algoName = "rle" then
    match env.rleRun pixelBuffer with
    | Except.error e => Except.error e
    | Except.ok _ => Except.ok DecodedBuffer.rleOut
  else
    Except.ok DecodedBuffer.nullBuf

/-- Boolean success test on a dispatch result. -/
def exceptIsOk : Except String DecodedBuffer → Bool
  | Except.ok _ => true
  | Except.error _ => false

/-- The buffer a successful dispatch delivers (`nullBuf` on a thrown one). -/
def dispatchPayload (env : Codecs) (algoName : String) (pixelBuffer : Nat)
    (pixelMeta : PixelMeta) : DecodedBuffer :=
  match dispatchDecode env algoName pixelBuffer pixelMeta with
  | Except.ok b => b
  | Except.error _ => DecodedBuffer.nullBuf

/-- Instance fields of `SynchPixelBufferDecoder`: constructor arguments
`#algoName`, `#numberOfData` and the mutable `#decodeCount` (initially 0). -/
structure SynchState where
  algoName : String
  numberOfData : Nat
  decodeCount : Nat
deriving DecidableEq, Repr

/-- Outcome of one `SynchPixelBufferDecoder.decode` call: the updated
instance state, the events fired during the call (in order), and the error
thrown out of the call, if any. -/
structure SynchResult where
  state : SynchState
  events : List Event
  thrown : Option String
deriving DecidableEq, Repr

/-- `SynchPixelBufferDecoder.decode` (part_001 lines 176-241):
`++this.#decodeCount` happens first; the dispatch chain then either throws
(the count increment survives, no event fires) or produces `decodedBuffer`;
`ondecodeditem` fires with that buffer and `info.itemNumber`; finally, when
the count equals `#numberOfData`, `ondecoded` then `ondecodeend` fire. -/
def SynchPixelBufferDecoder.decode (env : Codecs) (self : SynchState)
    (pixelBuffer : Nat) (pixelMeta : PixelMeta) (itemNumber : Nat) :
    SynchResult :=
  let newCount := self.decodeCount + 1
  let self1 : SynchState := { self with decodeCount := newCount }
  match dispatchDecode env self.algoName pixelBuffer pixelMeta with
  | Except.error e => { state := self1, events := [], thrown := some e }
  | Except.ok buf =>
    let endEvents :=
      if newCount = self.numberOfData then [Event.decoded, Event.decodeend]
      else []
    { state := self1
      events := Event.decodeditem buf itemNumber :: endEvents
      thrown := none }

/-- `SynchPixelBufferDecoder.abort` (part_001 lines 246-251): nothing to
cancel; fires `onabort` then `ondecodeend`. -/
def SynchPixelBufferDecoder.abort (self : SynchState) :
    SynchState × List Event :=
  (self, [Event.abort, Event.decodeend])

/-- One queued decode call: compressed buffer, its metadata, and the
`info.itemNumber` sequence index. -/
structure SynchCall where
  buf : Nat
  meta : PixelMeta
  itemNumber : Nat
deriving DecidableEq, Repr

/-- Run a batch of synchronous decode calls in order, concatenating the
events each call fires. -/
def runSynchBatch (env : Codecs) : SynchState → List SynchCall →
    SynchState × List Event
  | s, [] => (s, [])
  | s, c :: rest =>
    let r := SynchPixelBufferDecoder.decode env s c.buf c.meta c.itemNumber
    let (s2, evs) := runSynchBatch env r.state rest
    (s2, r.events ++ evs)

/-- The six `on*` handler slots of a decoder object.  A handler is modelled
as an opaque identifier; `0` stands for the default no-op function. -/
structure Handlers where
  ondecodestart : Nat
  ondecodeditem : Nat
  ondecoded : Nat
  ondecodeend : Nat
  onerror : Nat
  onabort : Nat
deriving DecidableEq, Repr

/-- The default handler assignment: every slot holds the no-op. -/
def defaultHandlers : Handlers := ⟨0, 0, 0, 0, 0, 0⟩

/-- The six identifiers held by a handler assignment, in slot order. -/
def handlerList (h : Handlers) : List Nat :=
  [h.ondecodestart, h.ondecodeditem, h.ondecoded, h.ondecodeend,
   h.onerror, h.onabort]

/-- The handler slot an event is dispatched to. -/
def handlerFor (h : Handlers) : Event → Nat
  | Event.decodestart => h.ondecodestart
  | Event.decodeditem _ _ => h.ondecodeditem
  | Event.decoded => h.ondecoded
  | Event.decodeend => h.ondecodeend
  | Event.error _ => h.onerror
  | Event.abort => h.onabort

/-- Instance fields of `AsynchPixelBufferDecoder`: the `#script` path, the
thread pool's handler slots (set from the decoder's own `on*` fields on
the first decode), the `#areCallbacksSet` guard, and the number of worker
tasks handed to the pool (`ThreadPool` internals live in `utils/thread`,
outside the embedded files, and are left opaque). -/
structure AsynchInner where
  script : String
  poolHandlers : Handlers
  areCallbacksSet : Bool
  poolTasks : Nat
deriving DecidableEq, Repr

/-- `AsynchPixelBufferDecoder.decode` (part_001 lines 61-83):
on the first call, copy the decoder's own six `on*` fields
(`ownHandlers`, assigned by the facade) onto the pool's handler slots and
set the guard; then enqueue a worker task. -/
def AsynchPixelBufferDecoder.decode (ownHandlers : Handlers)
    (a : AsynchInner) (_pixelBuffer : Nat) (_pixelMeta : PixelMeta)
    (_itemNumber : Nat) : AsynchInner :=
  let a1 :=
    if a.areCallbacksSet then a
    else { a with areCallbacksSet := true, poolHandlers := ownHandlers }
  { a1 with poolTasks := a1.poolTasks + 1 }

/-- The delegate held in `PixelBufferDecoder.#pixelDecoder`: either the
worker-pool decoder or the synchronous one. -/
inductive Delegate where
  | asynch (inner : AsynchInner)
  | synch (inner : SynchState)
deriving DecidableEq, Repr

/-- True when the delegate is the worker-pool decoder. -/
def delegateIsAsynch : Delegate → Bool
  | Delegate.asynch _ => true
  | Delegate.synch _ => false

/-- The worker script of an asynchronous delegate. -/
def delegateScript : Delegate → Option String
  | Delegate.asynch a => some a.script
  | Delegate.synch _ => none

/-- Instance fields of the `PixelBufferDecoder` facade: constructor
arguments, the delegate chosen at construction, the delegate's six `on*`
fields (overwritten by the facade on its first decode), the facade's own
six `on*` fields, and the `#areCallbacksSet` guard. -/
structure PBDState where
  algoName : String
  numberOfData : Nat
  delegate : Delegate
  delegateHandlers : Handlers
  facadeHandlers : Handlers
  areCallbacksSet : Bool
deriving DecidableEq, Repr

/-- `PixelBufferDecoder` constructor (part_001 lines 328-342): when
`decoderScripts[algoName]` is defined, build the asynchronous delegate on
that script, else the synchronous delegate; both start with default
handlers and unset guards. -/
def mkPixelBufferDecoder (decoderScripts : String → Option String)
    (algoName : String) (numberOfData : Nat) : PBDState :=
  { algoName := algoName
    numberOfData := numberOfData
    delegate :=
      match decoderScripts algoName with
      | some script =>
        Delegate.asynch
          { script := script, poolHandlers := defaultHandlers,
            areCallbacksSet := false, poolTasks := 0 }
      | none =>
        Delegate.synch
          { algoName := algoName, numberOfData := numberOfData,
            decodeCount := 0 }
    delegateHandlers := defaultHandlers
    facadeHandlers := defaultHandlers
    areCallbacksSet := false }

/-- An interaction with the facade: assigning its `on*` fields, a decode
call, or an abort call. -/
inductive PBDOp where
  | setHandlers (h : Handlers)
  | decode (pixelBuffer : Nat) (pixelMeta : PixelMeta) (itemNumber : Nat)
  | abort
deriving DecidableEq, Repr

/-- One facade interaction (`PixelBufferDecoder.decode`, part_001 lines
354-367, and `PixelBufferDecoder.abort`, lines 372-375).  A decode first
runs the idempotent callback-binding block (copy the facade's six `on*`
fields onto the delegate, once), then delegates.  The returned list pairs
each event fired during the call with the handler identifier it invoked:
the delegate calls `this.on*`, i.e. its own (facade-overwritten) slots. -/
def PBD.step (env : Codecs) (s : PBDState) :
    PBDOp → PBDState × List (Nat × Event)
  | PBDOp.setHandlers h => ({ s with facadeHandlers := h }, [])
  | PBDOp.decode pixelBuffer pixelMeta itemNumber =>
    let s1 :=
      if s.areCallbacksSet then s
      else { s with areCallbacksSet := true,
                    delegateHandlers := s.facadeHandlers }
    match s1.delegate with
    | Delegate.asynch a =>
      let a2 := AsynchPixelBufferDecoder.decode s1.delegateHandlers a
        pixelBuffer pixelMeta itemNumber
      ({ s1 with delegate := Delegate.asynch a2 }, [])
    | Delegate.synch ss =>
      let r := SynchPixelBufferDecoder.decode env ss
        pixelBuffer pixelMeta itemNumber
      ({ s1 with delegate := Delegate.synch r.state },
       r.events.map (fun e => (handlerFor s1.delegateHandlers e, e)))
  | PBDOp.abort =>
    match s.delegate with
    | Delegate.asynch a =>
      -- `#pool.abort()` runs inside `utils/thread`, outside the embedded
      -- files; its pool-level events are not modelled here.
      ({ s with delegate := Delegate.asynch a }, [])
    | Delegate.synch ss =>
      let (ss2, evs) := SynchPixelBufferDecoder.abort ss
      ({ s with delegate := Delegate.synch ss2 },
       evs.map (fun e => (handlerFor s.delegateHandlers e, e)))

/-- Run a sequence of facade interactions, concatenating the fired
(handler, event) pairs. -/
def PBD.run (env : Codecs) : PBDState → List PBDOp →
    PBDState × List (Nat × Event)
  | s, [] => (s, [])
  | s, op :: rest =>
    let (s1, evs) := PBD.step env s op
    let (s2, evs2) := PBD.run env s1 rest
    (s2, evs ++ evs2)

/-- Counters of `FilesLoader` (part_002): the stored input length and the
mutable `#nLoad`, `#nLoadend` counts. -/
structure FilesLoaderState where
  inputLen : Nat
  nLoad : Nat
  nLoadend : Nat
deriving DecidableEq, Repr

/-- `FilesLoader.#storeInputData` (part_002 lines 430-438): store the
input and reset both counters to 0. -/
def FilesLoader.storeInputData (inputLen : Nat) : FilesLoaderState :=
  { inputLen := inputLen, nLoad := 0, nLoadend := 0 }

/-- `FilesLoader.#addLoadend` (part_002 lines 508-519): increment
`#nLoadend`; fire `onloadend` exactly when the new count equals
`2 * inputData.length` (one reader-stage and one load-stage end event per
input).  The boolean reports whether `onloadend` fired. -/
def FilesLoader.addLoadend (s : FilesLoaderState) : FilesLoaderState × Bool :=
  let s1 := { s with nLoadend := s.nLoadend + 1 }
  (s1, decide (s1.nLoadend = 2 * s1.inputLen))

/-- Deliver `k` loadend events in a row, counting `onloadend` firings. -/
def FilesLoader.runLoadends : FilesLoaderState → Nat → FilesLoaderState × Nat
  | s, 0 => (s, 0)
  | s, k + 1 =>
    let (s1, fired) := FilesLoader.addLoadend s
    let (s2, c) := FilesLoader.runLoadends s1 k
    (s2, (if fired then 1 else 0) + c)

/-- Modelled from the spec: the code that routes a synchronous decode
failure to the error event is the surrounding loading pipeline, which is
not among the embedded files (the synchronous decoder itself throws and
never calls its own `onerror`).  §7 of the spec says a `MissingCodec`
failure is 'fatal for that task only, reported via the error event,
siblings unaffected'; this wrapper therefore catches the thrown error and
reports it on the error channel, leaving successful calls untouched. -/
def decodeReportingErrors (env : Codecs) (self : SynchState)
    (pixelBuffer : Nat) (pixelMeta : PixelMeta) (itemNumber : Nat) :
    SynchState × List Event :=
  let r := SynchPixelBufferDecoder.decode env self pixelBuffer pixelMeta
    itemNumber
  match r.thrown with
  | some msg => (r.state, r.events ++ [Event.error msg])
  | none => (r.state, r.events)

/-- A sample environment with every codec engine present and succeeding on
every buffer. -/
def envAllOk : Codecs :=
  { hasJpegBaselineDecoder := true
    hasJpegLosslessDecoder := true
    hasJpeg2000Decoder := true
    losslessRun := fun _ => Except.ok ()
    baselineRun := fun _ => Except.ok ()
    jpxRun := fun _ => Except.ok ()
    rleRun := fun _ => Except.ok () }

/-- A sample environment with no pluggable codec engine registered. -/
def envNoneRegistered : Codecs :=
  { hasJpegBaselineDecoder := false
    hasJpegLosslessDecoder := false
    hasJpeg2000Decoder := false
    losslessRun := fun _ => Except.ok ()
    baselineRun := fun _ => Except.ok ()
    jpxRun := fun _ => Except.ok ()
    rleRun := fun _ => Except.ok () }

/-- A sample environment whose RLE engine throws on buffer 0 (a malformed
bitstream) and succeeds elsewhere. -/
def envRleFailsAt0 : Codecs :=
  { hasJpegBaselineDecoder := true
    hasJpegLosslessDecoder := true
    hasJpeg2000Decoder := true
    losslessRun := fun _ => Except.ok ()
    baselineRun := fun _ => Except.ok ()
    jpxRun := fun _ => Except.ok ()
    rleRun := fun b => if b = 0 then Except.error "RLE codec failure"
      else Except.ok () }

/-- A sample environment where only the JPEG2000 engine is unregistered:
the lossless and baseline engines are present and succeed everywhere. -/
def envNoJpeg2000 : Codecs :=
  { hasJpegBaselineDecoder := true
    hasJpegLosslessDecoder := true
    hasJpeg2000Decoder := false
    losslessRun := fun _ => Except.ok ()
    baselineRun := fun _ => Except.ok ()
    jpxRun := fun _ => Except.ok ()
    rleRun := fun _ => Except.ok () }

/-- Sample frame metadata: 8-bit unsigned, one sample per pixel. -/
def metaU8 : PixelMeta :=
  { bitsAllocated := 8, isSigned := false, sliceSize := 4,
    samplesPerPixel := 1, planarConfiguration := 0 }

/-- True for an error event. -/
def Event.isError : Event → Bool
  | Event.error _ => true
  | _ => false

/-!  Theorems.  -/

/-- A successful dispatch result is `ok` of its payload. -/
theorem dispatch_ok_eq {env : Codecs} {algo : String} {b : Nat}
    {m : PixelMeta} (h : exceptIsOk (dispatchDecode env algo b m) = true) :
    dispatchDecode env algo b m =
      Except.ok (dispatchPayload env algo b m) := by
  cases hd : dispatchDecode env algo b m with
  | ok v => simp [dispatchPayload, hd]
  | error e => rw [hd] at h; exact absurd h (by simp [exceptIsOk])

/-- Explicit form of a successful synchronous decode call. -/
theorem decode_ok {env : Codecs} {s : SynchState} {b : Nat} {m : PixelMeta}
    {i : Nat} (h : exceptIsOk (dispatchDecode env s.algoName b m) = true) :
    SynchPixelBufferDecoder.decode env s b m i =
      { state := { s with decodeCount := s.decodeCount + 1 }
        events := Event.decodeditem (dispatchPayload env s.algoName b m) i ::
          (if s.decodeCount + 1 = s.numberOfData then
            [Event.decoded, Event.decodeend] else [])
        thrown := none } := by
  have hd := dispatch_ok_eq h
  simp [SynchPixelBufferDecoder.decode, hd]

/-- Explicit form of a throwing synchronous decode call: the count
increment survives the throw and no event fires. -/
theorem decode_throw {env : Codecs} {s : SynchState} {b : Nat}
    {m : PixelMeta} {i : Nat} {e : String}
    (h : dispatchDecode env s.algoName b m = Except.error e) :
    SynchPixelBufferDecoder.decode env s b m i =
      { state := { s with decodeCount := s.decodeCount + 1 }
        events := []
        thrown := some e } := by
  simp [SynchPixelBufferDecoder.decode, h]

/-- C5: calling `abort()` on the synchronous decoder fires exactly one
abort event followed by exactly one decode-end event, and no all-decoded
event. -/
theorem C5_synch_abort_events (self : SynchState) :
    ((SynchPixelBufferDecoder.abort self).2
        = [Event.abort, Event.decodeend]) ∧
    ((SynchPixelBufferDecoder.abort self).2.count Event.abort = 1) ∧
    ((SynchPixelBufferDecoder.abort self).2.count Event.decodeend = 1) ∧
    ((SynchPixelBufferDecoder.abort self).2.count Event.decoded = 0) := by
  exact ⟨rfl, rfl, rfl, rfl⟩

/-- C2 counterexample: decoding with the algorithm name `"foo"`, which is
absent from the dispatch table, does NOT fail — no error is thrown — and a
per-item-decoded event IS emitted (carrying the null payload), refuting
the claimed UnsupportedAlgorithm failure. -/
theorem C2_counterexample :
    ((SynchPixelBufferDecoder.decode envAllOk
        { algoName := "foo", numberOfData := 2, decodeCount := 0 }
        0 metaU8 5).thrown = none) ∧
    ((SynchPixelBufferDecoder.decode envAllOk
        { algoName := "foo", numberOfData := 2, decodeCount := 0 }
        0 metaU8 5).events
      = [Event.decodeditem DecodedBuffer.nullBuf 5]) := by
  exact ⟨by decide, by decide⟩

/-- C2 (amended): for every algorithm identity absent from the dispatch
table, the synchronous decode call does not fail: nothing is thrown and no
error event fires; instead a per-item-decoded event is emitted for that
call, carrying the null payload (no decoded pixel data). -/
theorem C2_unknown_algo_delivers_null (env : Codecs) (algoName : String)
    (n c b i : Nat) (m : PixelMeta)
    (h1 : algoName ≠ "jpeg-lossless") (h2 : algoName ≠ "jpeg-baseline")
    (h3 : algoName ≠ "jpeg2000") (h4 : algoName ≠ "rle") :
    ((SynchPixelBufferDecoder.decode env
        { algoName := algoName, numberOfData := n, decodeCount := c }
        b m i).thrown = none) ∧
    ((SynchPixelBufferDecoder.decode env
        { algoName := algoName, numberOfData := n, decodeCount := c }
        b m i).events.head?
      = some (Event.decodeditem DecodedBuffer.nullBuf i)) ∧
    ((SynchPixelBufferDecoder.decode env
        { algoName := algoName, numberOfData := n, decodeCount := c }
        b m i).events.countP Event.isError = 0) := by
  have hd : dispatchDecode env algoName b m =
      Except.ok DecodedBuffer.nullBuf := by
    simp [dispatchDecode, h1, h2, h3, h4]
  refine ⟨?_, ?_, ?_⟩ <;>
    by_cases hc : c + 1 = n <;>
      simp [SynchPixelBufferDecoder.decode, hd, hc, Event.isError]

/-- C2 witness: the amended statement instantiated at the concrete
algorithm name `"foo"`. -/
theorem C2_unknown_algo_delivers_null_witness :
    ("foo" ≠ "jpeg-lossless") ∧ ("foo" ≠ "jpeg-baseline") ∧
    ("foo" ≠ "jpeg2000") ∧ ("foo" ≠ "rle") ∧
    (((SynchPixelBufferDecoder.decode envAllOk
        { algoName := "foo", numberOfData := 3, decodeCount := 0 }
        7 metaU8 1).thrown = none) ∧
    ((SynchPixelBufferDecoder.decode envAllOk
        { algoName := "foo", numberOfData := 3, decodeCount := 0 }
        7 metaU8 1).events.head?
      = some (Event.decodeditem DecodedBuffer.nullBuf 1)) ∧
    ((SynchPixelBufferDecoder.decode envAllOk
        { algoName := "foo", numberOfData := 3, decodeCount := 0 }
        7 metaU8 1).events.countP Event.isError = 0)) :=
  ⟨by decide, by decide, by decide, by decide,
    C2_unknown_algo_delivers_null envAllOk "foo" 3 0 7 1 metaU8
      (by decide) (by decide) (by decide) (by decide)⟩

/-- C3: requesting a `jpeg2000` decode while the JPEG2000 engine is
unregistered fails with the missing-codec error, which the spec-modelled
reporting path surfaces as exactly one error event, no per-item-decoded
event being emitted for that task; likewise `jpeg-lossless` and
`jpeg-baseline`, each under only its own engine's absence. -/
theorem C3_missing_codec_reported (env : Codecs) (n c b i : Nat)
    (m : PixelMeta) :
    (env.hasJpeg2000Decoder = false →
      (decodeReportingErrors env
        { algoName := "jpeg2000", numberOfData := n, decodeCount := c }
        b m i).2 = [Event.error "No JPEG 2000 decoder provided"]) ∧
    (env.hasJpegLosslessDecoder = false →
      (decodeReportingErrors env
        { algoName := "jpeg-lossless", numberOfData := n, decodeCount := c }
        b m i).2 = [Event.error "No JPEG Lossless decoder provided"]) ∧
    (env.hasJpegBaselineDecoder = false →
      (decodeReportingErrors env
        { algoName := "jpeg-baseline", numberOfData := n, decodeCount := c }
        b m i).2 = [Event.error "No JPEG Baseline decoder provided"]) := by
  refine ⟨fun h2000 => ?_, fun hloss => ?_, fun hbase => ?_⟩
  · simp [decodeReportingErrors, SynchPixelBufferDecoder.decode,
      dispatchDecode, h2000]
  · simp [decodeReportingErrors, SynchPixelBufferDecoder.decode,
      dispatchDecode, hloss]
  · simp [decodeReportingErrors, SynchPixelBufferDecoder.decode,
      dispatchDecode, hbase]

/-- C3 witness: the JPEG2000 case at an environment where only the
JPEG2000 engine is missing (the other two engines registered), and the
lossless and baseline cases at an environment with no engine registered. -/
theorem C3_missing_codec_reported_witness :
    (envNoJpeg2000.hasJpeg2000Decoder = false) ∧
    ((decodeReportingErrors envNoJpeg2000
        { algoName := "jpeg2000", numberOfData := 1, decodeCount := 0 }
        0 metaU8 0).2 = [Event.error "No JPEG 2000 decoder provided"]) ∧
    (envNoneRegistered.hasJpegLosslessDecoder = false) ∧
    ((decodeReportingErrors envNoneRegistered
        { algoName := "jpeg-lossless", numberOfData := 1, decodeCount := 0 }
        0 metaU8 0).2 = [Event.error "No JPEG Lossless decoder provided"]) ∧
    (envNoneRegistered.hasJpegBaselineDecoder = false) ∧
    ((decodeReportingErrors envNoneRegistered
        { algoName := "jpeg-baseline", numberOfData := 1, decodeCount := 0 }
        0 metaU8 0).2 = [Event.error "No JPEG Baseline decoder provided"]) :=
  ⟨rfl,
    (C3_missing_codec_reported envNoJpeg2000 1 0 0 0 metaU8).1 rfl,
    rfl,
    (C3_missing_codec_reported envNoneRegistered 1 0 0 0 metaU8).2.1 rfl,
    rfl,
    (C3_missing_codec_reported envNoneRegistered 1 0 0 0 metaU8).2.2 rfl⟩

/-- C8: a successful synchronous `jpeg-lossless` decode delivers an array
whose element width and signedness follow the frame meta: 8-bit signed,
8-bit unsigned, 16-bit signed or 16-bit unsigned per
(bitsAllocated, isSigned). -/
theorem C8_lossless_output_typing (env : Codecs) (n c b i sl sp pc : Nat)
    (hdec : env.hasJpegLosslessDecoder = true)
    (hrun : env.losslessRun b = Except.ok ()) :
    ((SynchPixelBufferDecoder.decode env
        { algoName := "jpeg-lossless", numberOfData := n, decodeCount := c }
        b { bitsAllocated := 8, isSigned := true, sliceSize := sl,
            samplesPerPixel := sp, planarConfiguration := pc }
        i).events.head?
      = some (Event.decodeditem DecodedBuffer.int8Arr i)) ∧
    ((SynchPixelBufferDecoder.decode env
        { algoName := "jpeg-lossless", numberOfData := n, decodeCount := c }
        b { bitsAllocated := 8, isSigned := false, sliceSize := sl,
            samplesPerPixel := sp, planarConfiguration := pc }
        i).events.head?
      = some (Event.decodeditem DecodedBuffer.uint8Arr i)) ∧
    ((SynchPixelBufferDecoder.decode env
        { algoName := "jpeg-lossless", numberOfData := n, decodeCount := c }
        b { bitsAllocated := 16, isSigned := true, sliceSize := sl,
            samplesPerPixel := sp, planarConfiguration := pc }
        i).events.head?
      = some (Event.decodeditem DecodedBuffer.int16Arr i)) ∧
    ((SynchPixelBufferDecoder.decode env
        { algoName := "jpeg-lossless", numberOfData := n, decodeCount := c }
        b { bitsAllocated := 16, isSigned := false, sliceSize := sl,
            samplesPerPixel := sp, planarConfiguration := pc }
        i).events.head?
      = some (Event.decodeditem DecodedBuffer.uint16Arr i)) := by
  refine ⟨?_, ?_, ?_, ?_⟩ <;>
    simp [SynchPixelBufferDecoder.decode, dispatchDecode, hdec, hrun]

/-- C8 witness: the output typing at a concrete environment with the
lossless engine present. -/
theorem C8_lossless_output_typing_witness :
    (envAllOk.hasJpegLosslessDecoder = true) ∧
    (envAllOk.losslessRun 3 = Except.ok ()) ∧
    ((SynchPixelBufferDecoder.decode envAllOk
        { algoName := "jpeg-lossless", numberOfData := 4, decodeCount := 0 }
        3 { bitsAllocated := 8, isSigned := true, sliceSize := 4,
            samplesPerPixel := 1, planarConfiguration := 0 }
        2).events.head?
      = some (Event.decodeditem DecodedBuffer.int8Arr 2)) := by
  refine ⟨rfl, rfl, ?_⟩
  exact (C8_lossless_output_typing envAllOk 4 0 3 2 4 1 0 rfl rfl).1

/-- Unfolding of one loadend-delivery step. -/
theorem runLoadends_succ (M a c k : Nat) :
    (FilesLoader.runLoadends ⟨M, a, c⟩ (k + 1)).2 =
      (if c + 1 = 2 * M then 1 else 0) +
        (FilesLoader.runLoadends ⟨M, a, c + 1⟩ k).2 := by
  simp [FilesLoader.runLoadends, FilesLoader.addLoadend]

/-- Once the loadend count has reached the doubled threshold, later
loadend events never fire `onloadend` again. -/
theorem runLoadends_after_threshold (M a : Nat) :
    ∀ (k c : Nat), 2 * M ≤ c →
      (FilesLoader.runLoadends ⟨M, a, c⟩ k).2 = 0 := by
  intro k
  induction k with
  | zero => intro c _; rfl
  | succ k ih =>
    intro c hc
    rw [runLoadends_succ, if_neg (by omega)]
    simpa using ih (c + 1) (by omega)

/-- Below the doubled threshold, delivering `k` further loadend events
fires `onloadend` exactly once when the threshold is reached within them,
and never otherwise. -/
theorem runLoadends_count (M a : Nat) :
    ∀ (k c : Nat), c < 2 * M →
      (FilesLoader.runLoadends ⟨M, a, c⟩ k).2 =
        if 2 * M ≤ c + k then 1 else 0 := by
  intro k
  induction k with
  | zero =>
    intro c hlt
    rw [if_neg (by omega)]
    rfl
  | succ k ih =>
    intro c hlt
    rw [runLoadends_succ]
    by_cases hc : c + 1 = 2 * M
    · rw [if_pos hc, if_pos (by omega)]
      have h0 := runLoadends_after_threshold M a k (c + 1) (by omega)
      omega
    · rw [if_neg hc]
      have hih := ih (c + 1) (by omega)
      rw [hih]
      split_ifs <;> omega

/-- C7: for a loader batch of `M` input files, `onloadend` fires exactly
once, precisely when the running count of received loadend events reaches
`2 * M` (one reader-stage and one load-stage end event per input), and at
no smaller count. -/
theorem C7_loadend_doubled_threshold (M k : Nat) (hM : 0 < M) :
    (FilesLoader.runLoadends (FilesLoader.storeInputData M) k).2 =
      if 2 * M ≤ k then 1 else 0 := by
  have h := runLoadends_count M 0 k 0 (by omega)
  simpa [FilesLoader.storeInputData] using h

/-- C7 witness: with two input files, four loadend events fire `onloadend`
once, three do not. -/
theorem C7_loadend_doubled_threshold_witness :
    (0 < 2) ∧
    ((FilesLoader.runLoadends (FilesLoader.storeInputData 2) 4).2 =
      if 2 * 2 ≤ 4 then 1 else 0) ∧
    ((FilesLoader.runLoadends (FilesLoader.storeInputData 2) 3).2 =
      if 2 * 2 ≤ 3 then 1 else 0) :=
  ⟨by decide, C7_loadend_doubled_threshold 2 4 (by decide),
    C7_loadend_doubled_threshold 2 3 (by decide)⟩

/-- C9: the synchronous decoder increments its completed-count before
attempting the decode, so a call that fails by throwing still advances the
count by one while emitting no per-item event; consequently, in a batch of
two where the first call throws and the second succeeds, the all-decoded
and decode-end events fire at the second (final attempted) call even
though only one per-item event was delivered. -/
theorem C9_count_advances_on_throw (env : Codecs) (algoName : String)
    (b1 b2 i1 i2 : Nat) (m1 m2 : PixelMeta)
    (hfail : exceptIsOk (dispatchDecode env algoName b1 m1) = false)
    (hok : exceptIsOk (dispatchDecode env algoName b2 m2) = true) :
    ((SynchPixelBufferDecoder.decode env
        { algoName := algoName, numberOfData := 2, decodeCount := 0 }
        b1 m1 i1).state.decodeCount = 1) ∧
    ((SynchPixelBufferDecoder.decode env
        { algoName := algoName, numberOfData := 2, decodeCount := 0 }
        b1 m1 i1).events = []) ∧
    ((SynchPixelBufferDecoder.decode env
        { algoName := algoName, numberOfData := 2, decodeCount := 0 }
        b1 m1 i1).thrown.isSome = true) ∧
    ((SynchPixelBufferDecoder.decode env
        { algoName := algoName, numberOfData := 2, decodeCount := 1 }
        b2 m2 i2).events =
      [Event.decodeditem (dispatchPayload env algoName b2 m2) i2,
        Event.decoded, Event.decodeend]) ∧
    (((SynchPixelBufferDecoder.decode env
        { algoName := algoName, numberOfData := 2, decodeCount := 0 }
        b1 m1 i1).events ++
      (SynchPixelBufferDecoder.decode env
        { algoName := algoName, numberOfData := 2, decodeCount := 1 }
        b2 m2 i2).events).countP Event.isItem = 1) := by
  have he : ∃ e, dispatchDecode env algoName b1 m1 = Except.error e := by
    cases hd : dispatchDecode env algoName b1 m1 with
    | ok v => rw [hd] at hfail; exact absurd hfail (by simp [exceptIsOk])
    | error e => exact ⟨e, rfl⟩
  obtain ⟨e, hd1⟩ := he
  have h1 : SynchPixelBufferDecoder.decode env
      { algoName := algoName, numberOfData := 2, decodeCount := 0 }
      b1 m1 i1 =
      ⟨{ algoName := algoName, numberOfData := 2, decodeCount := 1 },
        [], some e⟩ := decode_throw hd1
  have h2 : SynchPixelBufferDecoder.decode env
      { algoName := algoName, numberOfData := 2, decodeCount := 1 }
      b2 m2 i2 =
      ⟨{ algoName := algoName, numberOfData := 2, decodeCount := 2 },
        [Event.decodeditem (dispatchPayload env algoName b2 m2) i2,
          Event.decoded, Event.decodeend], none⟩ := decode_ok hok
  refine ⟨?_, ?_, ?_, ?_, ?_⟩ <;>
    simp [h1, h2, Event.isItem]

/-- C9 witness: the RLE engine throws on buffer 0 and succeeds on buffer
1; the two-call batch delivers one per-item event yet terminates with
all-decoded and decode-end. -/
theorem C9_count_advances_on_throw_witness :
    (exceptIsOk (dispatchDecode envRleFailsAt0 "rle" 0 metaU8) = false) ∧
    (exceptIsOk (dispatchDecode envRleFailsAt0 "rle" 1 metaU8) = true) ∧
    (((SynchPixelBufferDecoder.decode envRleFailsAt0
        { algoName := "rle", numberOfData := 2, decodeCount := 0 }
        0 metaU8 0).state.decodeCount = 1) ∧
    ((SynchPixelBufferDecoder.decode envRleFailsAt0
        { algoName := "rle", numberOfData := 2, decodeCount := 0 }
        0 metaU8 0).events = []) ∧
    ((SynchPixelBufferDecoder.decode envRleFailsAt0
        { algoName := "rle", numberOfData := 2, decodeCount := 0 }
        0 metaU8 0).thrown.isSome = true) ∧
    ((SynchPixelBufferDecoder.decode envRleFailsAt0
        { algoName := "rle", numberOfData := 2, decodeCount := 1 }
        1 metaU8 1).events =
      [Event.decodeditem (dispatchPayload envRleFailsAt0 "rle" 1 metaU8) 1,
        Event.decoded, Event.decodeend]) ∧
    (((SynchPixelBufferDecoder.decode envRleFailsAt0
        { algoName := "rle", numberOfData := 2, decodeCount := 0 }
        0 metaU8 0).events ++
      (SynchPixelBufferDecoder.decode envRleFailsAt0
        { algoName := "rle", numberOfData := 2, decodeCount := 1 }
        1 metaU8 1).events).countP Event.isItem = 1)) :=
  ⟨by decide, by decide,
    C9_count_advances_on_throw envRleFailsAt0 "rle" 0 1 0 1 metaU8 metaU8
      (by decide) (by decide)⟩

/-- Unfolding of one batch step. -/
theorem runSynchBatch_cons (env : Codecs) (s : SynchState) (c : SynchCall)
    (rest : List SynchCall) :
    runSynchBatch env s (c :: rest) =
      ((runSynchBatch env
          (SynchPixelBufferDecoder.decode env s c.buf c.meta
            c.itemNumber).state rest).1,
        (SynchPixelBufferDecoder.decode env s c.buf c.meta
            c.itemNumber).events ++
          (runSynchBatch env
            (SynchPixelBufferDecoder.decode env s c.buf c.meta
              c.itemNumber).state rest).2) := by
  simp [runSynchBatch]

/-- A nonempty all-successful batch whose length brings the count from `c`
up to the expected total yields one per-item event per call, in call
order, followed by all-decoded then decode-end. -/
theorem runSynchBatch_ok (env : Codecs) (algo : String) (n : Nat) :
    ∀ (calls : List SynchCall) (c : Nat), calls ≠ [] →
      c + calls.length = n →
      (∀ call ∈ calls,
        exceptIsOk (dispatchDecode env algo call.buf call.meta) = true) →
      runSynchBatch env
          { algoName := algo, numberOfData := n, decodeCount := c } calls =
        ({ algoName := algo, numberOfData := n, decodeCount := n },
         calls.map (fun call =>
             Event.decodeditem
               (dispatchPayload env algo call.buf call.meta)
               call.itemNumber)
           ++ [Event.decoded, Event.decodeend]) := by
  intro calls
  induction calls with
  | nil => intro c hne; exact absurd rfl hne
  | cons call rest ih =>
    intro c _ hlen hok
    have hokhead :
        exceptIsOk (dispatchDecode env algo call.buf call.meta) = true :=
      hok call (List.mem_cons_self call rest)
    have hhead : SynchPixelBufferDecoder.decode env
        { algoName := algo, numberOfData := n, decodeCount := c }
        call.buf call.meta call.itemNumber =
        ⟨{ algoName := algo, numberOfData := n, decodeCount := c + 1 },
          Event.decodeditem (dispatchPayload env algo call.buf call.meta)
              call.itemNumber ::
            (if c + 1 = n then [Event.decoded, Event.decodeend] else []),
          none⟩ := decode_ok hokhead
    cases rest with
    | nil =>
      have hcn : c + 1 = n := by
        simpa using hlen
      rw [runSynchBatch_cons, hhead]
      simp [runSynchBatch, hcn]
    | cons call2 rest2 =>
      have hcn : ¬(c + 1 = n) := by
        simp only [List.length_cons] at hlen
        omega
      rw [runSynchBatch_cons, hhead]
      have htail := ih (c + 1) (by simp)
        (by simp only [List.length_cons] at hlen ⊢; omega)
        (fun x hx => hok x (List.mem_cons_of_mem call hx))
      simp only [hcn, if_false]
      rw [htail]
      simp

/-- C1: a batch of size `K` decoded synchronously with every call
succeeding fires exactly `K` per-item-decoded events, one per call in call
order, followed by exactly one all-decoded and then one decode-end event;
moreover a successful call fires all-decoded exactly when the updated
count equals the batch's expected total. -/
theorem C1_synch_batch_events (env : Codecs) (algo : String) (K : Nat)
    (calls : List SynchCall) (hK : calls.length = K) (hne : calls ≠ [])
    (hok : ∀ call ∈ calls,
      exceptIsOk (dispatchDecode env algo call.buf call.meta) = true) :
    ((runSynchBatch env
        { algoName := algo, numberOfData := K, decodeCount := 0 }
        calls).2 =
      calls.map (fun call =>
          Event.decodeditem (dispatchPayload env algo call.buf call.meta)
            call.itemNumber)
        ++ [Event.decoded, Event.decodeend]) ∧
    (∀ (s : SynchState) (b : Nat) (m : PixelMeta) (i : Nat),
      exceptIsOk (dispatchDecode env s.algoName b m) = true →
        (Event.decoded ∈
            (SynchPixelBufferDecoder.decode env s b m i).events ↔
          s.decodeCount + 1 = s.numberOfData)) := by
  constructor
  · have h := runSynchBatch_ok env algo K calls 0 hne (by omega) hok
    rw [h]
  · intro s b m i h
    rw [decode_ok h]
    by_cases hc : s.decodeCount + 1 = s.numberOfData <;> simp [hc]

/-- C1 witness: a concrete all-successful RLE batch of size two. -/
theorem C1_synch_batch_events_witness :
    (([⟨0, metaU8, 0⟩, ⟨1, metaU8, 1⟩] : List SynchCall).length = 2) ∧
    (([⟨0, metaU8, 0⟩, ⟨1, metaU8, 1⟩] : List SynchCall) ≠ []) ∧
    (∀ call ∈ ([⟨0, metaU8, 0⟩, ⟨1, metaU8, 1⟩] : List SynchCall),
      exceptIsOk (dispatchDecode envAllOk "rle" call.buf call.meta)
        = true) ∧
    (((runSynchBatch envAllOk
        { algoName := "rle", numberOfData := 2, decodeCount := 0 }
        ([⟨0, metaU8, 0⟩, ⟨1, metaU8, 1⟩] : List SynchCall)).2 =
      ([⟨0, metaU8, 0⟩, ⟨1, metaU8, 1⟩] : List SynchCall).map
          (fun call =>
            Event.decodeditem
              (dispatchPayload envAllOk "rle" call.buf call.meta)
              call.itemNumber)
        ++ [Event.decoded, Event.decodeend]) ∧
    (∀ (s : SynchState) (b : Nat) (m : PixelMeta) (i : Nat),
      exceptIsOk (dispatchDecode envAllOk s.algoName b m) = true →
        (Event.decoded ∈
            (SynchPixelBufferDecoder.decode envAllOk s b m i).events ↔
          s.decodeCount + 1 = s.numberOfData))) :=
  ⟨by decide, by decide, by decide,
    C1_synch_batch_events envAllOk "rle" 2
      ([⟨0, metaU8, 0⟩, ⟨1, metaU8, 1⟩] : List SynchCall)
      (by decide) (by decide) (by decide)⟩

/-- No facade interaction changes the kind or worker script of the
delegate chosen at construction. -/
theorem step_preserves_delegate_kind (env : Codecs) (s : PBDState)
    (op : PBDOp) :
    delegateIsAsynch (PBD.step env s op).1.delegate
        = delegateIsAsynch s.delegate ∧
    delegateScript (PBD.step env s op).1.delegate
        = delegateScript s.delegate := by
  cases op with
  | setHandlers h => exact ⟨rfl, rfl⟩
  | decode b m i =>
    by_cases hset : s.areCallbacksSet <;>
      cases hd : s.delegate <;>
        simp [PBD.step, AsynchPixelBufferDecoder.decode, hset, hd,
          delegateIsAsynch, delegateScript] <;>
        split <;> rfl
  | abort =>
    cases hd : s.delegate <;>
      simp [PBD.step, SynchPixelBufferDecoder.abort, hd,
        delegateIsAsynch, delegateScript]

/-- Unfolding of one facade run step. -/
theorem PBD_run_cons (env : Codecs) (s : PBDState) (op : PBDOp)
    (rest : List PBDOp) :
    PBD.run env s (op :: rest) =
      ((PBD.run env (PBD.step env s op).1 rest).1,
        (PBD.step env s op).2 ++
          (PBD.run env (PBD.step env s op).1 rest).2) := by
  simp [PBD.run]

/-- No sequence of facade interactions changes the kind or worker script
of the delegate chosen at construction. -/
theorem run_preserves_delegate_kind (env : Codecs) :
    ∀ (ops : List PBDOp) (s : PBDState),
      delegateIsAsynch (PBD.run env s ops).1.delegate
          = delegateIsAsynch s.delegate ∧
      delegateScript (PBD.run env s ops).1.delegate
          = delegateScript s.delegate := by
  intro ops
  induction ops with
  | nil => intro s; exact ⟨rfl, rfl⟩
  | cons op rest ih =>
    intro s
    have hstep := step_preserves_delegate_kind env s op
    have hrest := ih (PBD.step env s op).1
    rw [PBD_run_cons]
    exact ⟨hstep.1 ▸ hrest.1, hstep.2 ▸ hrest.2⟩

/-- C4: the `PixelBufferDecoder` constructor routes to the worker-pool
delegate exactly when the `decoderScripts` registry has an entry for the
algorithm (carrying that entry's script), to the synchronous delegate
otherwise; and no sequence of decode or abort calls ever changes that
routing for the instance's lifetime. -/
theorem C4_routing_fixed_at_construction (env : Codecs)
    (decoderScripts : String → Option String) (algoName : String)
    (numberOfData : Nat) :
    (delegateIsAsynch
        (mkPixelBufferDecoder decoderScripts algoName numberOfData).delegate
      = (decoderScripts algoName).isSome) ∧
    (delegateScript
        (mkPixelBufferDecoder decoderScripts algoName numberOfData).delegate
      = decoderScripts algoName) ∧
    (∀ ops : List PBDOp,
      delegateIsAsynch (PBD.run env
          (mkPixelBufferDecoder decoderScripts algoName numberOfData)
          ops).1.delegate
        = (decoderScripts algoName).isSome ∧
      delegateScript (PBD.run env
          (mkPixelBufferDecoder decoderScripts algoName numberOfData)
          ops).1.delegate
        = decoderScripts algoName) := by
  have hmk1 : delegateIsAsynch
      (mkPixelBufferDecoder decoderScripts algoName numberOfData).delegate
      = (decoderScripts algoName).isSome := by
    cases hd : decoderScripts algoName <;>
      simp [mkPixelBufferDecoder, hd, delegateIsAsynch]
  have hmk2 : delegateScript
      (mkPixelBufferDecoder decoderScripts algoName numberOfData).delegate
      = decoderScripts algoName := by
    cases hd : decoderScripts algoName <;>
      simp [mkPixelBufferDecoder, hd, delegateScript]
  refine ⟨hmk1, hmk2, fun ops => ?_⟩
  have h := run_preserves_delegate_kind env ops
    (mkPixelBufferDecoder decoderScripts algoName numberOfData)
  exact ⟨h.1.trans hmk1, h.2.trans hmk2⟩

/-- C6: the callback-binding block of the facade's decode, and the one of
the worker-pool delegate's decode, each run exactly once: a decode with
the guard unset copies the six externally observable callbacks onto the
delegate (resp. the pool) and sets the guard, while a decode with the
guard set leaves the bound callbacks unchanged. -/
theorem C6_callbacks_bound_once (env : Codecs) (s : PBDState)
    (a : AsynchInner) (own : Handlers) (b : Nat) (m : PixelMeta) (i : Nat) :
    ((PBD.step env { s with areCallbacksSet := false }
        (PBDOp.decode b m i)).1.delegateHandlers = s.facadeHandlers) ∧
    ((PBD.step env { s with areCallbacksSet := false }
        (PBDOp.decode b m i)).1.areCallbacksSet = true) ∧
    ((PBD.step env { s with areCallbacksSet := true }
        (PBDOp.decode b m i)).1.delegateHandlers = s.delegateHandlers) ∧
    ((PBD.step env { s with areCallbacksSet := true }
        (PBDOp.decode b m i)).1.areCallbacksSet = true) ∧
    ((AsynchPixelBufferDecoder.decode own
        { a with areCallbacksSet := false } b m i).poolHandlers = own) ∧
    ((AsynchPixelBufferDecoder.decode own
        { a with areCallbacksSet := true } b m i).poolHandlers
      = a.poolHandlers) := by
  refine ⟨?_, ?_, ?_, ?_, ?_, ?_⟩ <;>
    cases hd : s.delegate <;>
      simp [PBD.step, AsynchPixelBufferDecoder.decode, hd]

/-- Every dispatched event invokes one of the six bound handler slots. -/
theorem handlerFor_mem (h : Handlers) (e : Event) :
    handlerFor h e ∈ handlerList h := by
  cases e <;> simp [handlerFor, handlerList]

/-- Once the facade's callback guard is set with bound handlers `H`, any
further interaction leaves the binding at `H`, keeps the guard set, and
fires only handlers among `H`'s six slots. -/
theorem step_preserves_binding (env : Codecs) (s : PBDState) (op : PBDOp)
    (hset : s.areCallbacksSet = true) :
    ((PBD.step env s op).1.delegateHandlers = s.delegateHandlers) ∧
    ((PBD.step env s op).1.areCallbacksSet = true) ∧
    (∀ p ∈ (PBD.step env s op).2,
      p.1 ∈ handlerList s.delegateHandlers) := by
  cases op with
  | setHandlers h =>
    exact ⟨rfl, hset, by simp [PBD.step]⟩
  | decode b m i =>
    cases hd : s.delegate with
    | asynch a =>
      refine ⟨?_, ?_, ?_⟩ <;>
        simp [PBD.step, AsynchPixelBufferDecoder.decode, hset, hd]
    | synch ss =>
      refine ⟨?_, ?_, ?_⟩ <;>
        simp only [PBD.step, hset, if_true, hd] <;>
          first
            | rfl
            | (intro p hp
               simp only [List.mem_map] at hp
               obtain ⟨e, _, hpe⟩ := hp
               rw [← hpe]
               exact handlerFor_mem s.delegateHandlers e)
  | abort =>
    cases hd : s.delegate with
    | asynch a =>
      refine ⟨?_, ?_, ?_⟩ <;> simp [PBD.step, hd, hset]
    | synch ss =>
      refine ⟨?_, ?_, ?_⟩ <;>
        simp only [PBD.step, SynchPixelBufferDecoder.abort, hd, hset] <;>
          first
            | rfl
            | (intro p hp
               simp only [List.mem_map] at hp
               obtain ⟨e, _, hpe⟩ := hp
               rw [← hpe]
               exact handlerFor_mem s.delegateHandlers e)

/-- Over a whole run from a state whose guard is set, the binding stays
fixed and every fired handler is one of the six bound slots. -/
theorem run_firings_bound (env : Codecs) (H : Handlers) :
    ∀ (ops : List PBDOp) (s : PBDState), s.areCallbacksSet = true →
      s.delegateHandlers = H →
      ((PBD.run env s ops).1.delegateHandlers = H) ∧
      ((PBD.run env s ops).1.areCallbacksSet = true) ∧
      (∀ p ∈ (PBD.run env s ops).2, p.1 ∈ handlerList H) := by
  intro ops
  induction ops with
  | nil => intro s hset hH; exact ⟨hH, hset, by simp [PBD.run]⟩
  | cons op rest ih =>
    intro s hset hH
    have hstep := step_preserves_binding env s op hset
    have hrest := ih (PBD.step env s op).1 hstep.2.1
      (hstep.1.trans hH)
    rw [PBD_run_cons]
    refine ⟨hrest.1, hrest.2.1, ?_⟩
    intro p hp
    rcases List.mem_append.mp hp with hp1 | hp2
    · exact hH ▸ hstep.2.2 p hp1
    · exact hrest.2.2 p hp2

/-- After constructing a facade, assigning handlers `h1` and making the
first decode call, the delegate's bound handlers are exactly `h1` and the
guard is set. -/
theorem after_first_decode_binds (env : Codecs)
    (ds : String → Option String) (algo : String) (n : Nat) (h1 : Handlers)
    (b : Nat) (m : PixelMeta) (i : Nat) :
    ((PBD.step env (PBD.step env (mkPixelBufferDecoder ds algo n)
        (PBDOp.setHandlers h1)).1
        (PBDOp.decode b m i)).1.delegateHandlers = h1) ∧
    ((PBD.step env (PBD.step env (mkPixelBufferDecoder ds algo n)
        (PBDOp.setHandlers h1)).1
        (PBDOp.decode b m i)).1.areCallbacksSet = true) := by
  cases hd : ds algo <;>
    constructor <;>
      simp [PBD.step, mkPixelBufferDecoder, hd,
        AsynchPixelBufferDecoder.decode]

/-- C10: only handlers assigned to the facade before its first decode call
ever fire.  After construction, assigning handlers `h1` and making the
first decode call, the delegate holds exactly `h1`; any further
interactions — including later handler assignments — leave the delegate's
binding at `h1` and fire only handlers among `h1`'s six slots, so a
handler assigned after the first call never fires. -/
theorem C10_post_decode_handlers_never_fire (env : Codecs)
    (ds : String → Option String) (algo : String) (n : Nat) (h1 : Handlers)
    (b : Nat) (m : PixelMeta) (i : Nat) (ops : List PBDOp) :
    ((PBD.step env (PBD.step env (mkPixelBufferDecoder ds algo n)
        (PBDOp.setHandlers h1)).1
        (PBDOp.decode b m i)).1.delegateHandlers = h1) ∧
    ((PBD.run env (PBD.step env (PBD.step env
        (mkPixelBufferDecoder ds algo n) (PBDOp.setHandlers h1)).1
        (PBDOp.decode b m i)).1 ops).1.delegateHandlers = h1) ∧
    (∀ p ∈ (PBD.run env (PBD.step env (PBD.step env
        (mkPixelBufferDecoder ds algo n) (PBDOp.setHandlers h1)).1
        (PBDOp.decode b m i)).1 ops).2, p.1 ∈ handlerList h1) := by
  have hbind := after_first_decode_binds env ds algo n h1 b m i
  have hrun := run_firings_bound env h1 ops _ hbind.2 hbind.1
  exact ⟨hbind.1, hrun.1, hrun.2.2⟩

end Dwv
